import Mathlib

/-!
# PDFMathTranslate desktop launcher (`src/webapp/main.js`)

A shallow embedding of the launcher script: the readiness poll `checkService`
(a promise driven by callbacks), the two configuration readers, the module top
level with its `app.whenReady` callback, and the two handlers that signal the
spawned process.

Callbacks are modelled as a step function on an explicit state: every handler
of the script runs to completion on one event of the environment and appends
the side effects it performs, in order, to a trace.
-/

namespace PDFMathTranslate

/-! ## Side effects -/

/-- Side effects the script performs on its collaborators, in the order in
which the statements of `main.js` perform them. -/
inductive Effect where
  /-- console.log -/
  | consoleLog (msg : String)
  /-- console.warn -/
  | consoleWarn (msg : String)
  /-- console.error -/
  | consoleError (msg : String)
  /-- The constructor call `new ProgressBar` with its `maxValue` (line 19) -/
  | newProgressBar (maxValue : Nat)
  /-- The assignment `progressBar.value = progress` (line 58) -/
  | barValue (value : Nat)
  /-- The assignment of `progressBar.detail` (line 59), which renders
  `progress/retries` -/
  | barDetail (progress retries : Nat)
  /-- The call `progressBar.setCompleted()` (line 50) -/
  | barSetCompleted
  /-- The call `progressBar.close()` (lines 38, 42, 64) -/
  | barClose
  /-- The call `http.get(url, ...)` (line 48) -/
  | httpGet (url : String)
  /-- The call `setTimeout(attempt, interval)` (line 62) -/
  | setTimeout (delay : Nat)
  /-- The call `exec(command, ...)` (line 155) -/
  | exec (command : String)
  /-- The call `kill(pid, signal, ...)` of tree-kill (lines 137, 183) -/
  | kill (pid : Nat) (signal : String)
  /-- The call `dialog.showErrorBox` -/
  | showErrorBox (title content : String)
  /-- The call `app.quit()` -/
  | appQuit
  /-- The call `Menu.setApplicationMenu(null)` (line 126) -/
  | setApplicationMenuNull
  /-- The call `mainWindow.loadURL(url)` (line 133) -/
  | loadURL (url : String)
  deriving DecidableEq, Repr

/-! ## checkService (lines 14-72) -/

/-- The three errors with which `checkService` rejects its promise. -/
inductive Rejection where
  /-- Line 43, in the handler of the progress bar's 'aborted' event -/
  | abortedByUser
  /-- Line 53, a response whose status code is not 200 -/
  | statusCode (code : Nat)
  /-- Line 65, the retries are used up -/
  | timeout
  deriving DecidableEq, Repr

/-- The message of each `new Error(...)` passed to `reject`. -/
def Rejection.message : Rejection → String
  | .abortedByUser => "Progress bar aborted by user"
  | .statusCode code => "Service returned status code " ++ toString code
  | .timeout => "服务启动超时，请检查配置或网络连接"

/-- State of the promise returned by `checkService`. -/
inductive PromiseState where
  | pending
  | fulfilled
  | rejected (reason : Rejection)
  deriving DecidableEq, Repr

/-- Calling `resolve()`: a promise settles once, later calls do nothing. -/
def PromiseState.resolve : PromiseState → PromiseState
  | .pending => .fulfilled
  | s => s

/-- Calling `reject(reason)`: a promise settles once, later calls do nothing. -/
def PromiseState.reject (reason : Rejection) : PromiseState → PromiseState
  | .pending => .rejected reason
  | s => s

/-- The arguments of `checkService(url, retries = 100, interval = 1000)`. -/
structure CheckArgs where
  url : String
  retries : Nat := 100
  interval : Nat := 1000
  deriving DecidableEq, Repr

/-- What the environment delivers to the callbacks registered by
`checkService`. A request runs its response callback at most once and emits
'error' at most once; the error may come instead of the response or after
it, and the script detaches neither callback. -/
inductive Event where
  /-- The response callback of `http.get` runs with `res.statusCode` -/
  | response (statusCode : Nat)
  /-- A request emits 'error', before a response or after its response -/
  | requestError
  /-- The timer set by `setTimeout(attempt, interval)` expires -/
  | timerFired
  /-- The progress bar emits 'completed' -/
  | barCompleted
  /-- The progress bar emits 'aborted' -/
  | barAborted
  deriving DecidableEq, Repr

/-- The variables of one `checkService` call: the counter `progress`, the
promise, what the call is waiting for, and the effects performed so far. -/
structure CheckState where
  progress : Nat
  promise : PromiseState
  /-- Requests issued by `http.get` that have neither received a response nor
  emitted 'error' -/
  awaiting : Nat
  /-- Requests whose response callback has run and that have not emitted
  'error'; they still can -/
  responded : Nat
  /-- Timers of `setTimeout(attempt, interval)` that have not expired yet -/
  timers : Nat
  trace : List Effect
  deriving DecidableEq, Repr

/-- The closure `attempt` (lines 46-68) up to the return of `http.get`: the
request is issued, its two callbacks are registered. -/
def attempt (a : CheckArgs) (s : CheckState) : CheckState :=
  { s with awaiting := s.awaiting + 1, trace := s.trace ++ [.httpGet a.url] }

/-- The body of the promise executor of `checkService` (lines 16-70):
`progress = 0`, the progress bar is created with `maxValue: retries`, the two
bar handlers are registered, and `attempt()` is called once. -/
def checkService (a : CheckArgs) : CheckState :=
  attempt a
    { progress := 0, promise := .pending, awaiting := 0, responded := 0,
      timers := 0, trace := [.newProgressBar a.retries] }

/-- The response callback (lines 48-55). -/
def onResponse (s : CheckState) (statusCode : Nat) : CheckState :=
  if statusCode = 200 then
    { s with trace := s.trace ++ [.barSetCompleted], promise := s.promise.resolve }
  else
    { s with promise := s.promise.reject (.statusCode statusCode) }

/-- The 'error' handler of the request (lines 56-67). It reads neither the
state of the promise nor whether the request has had a response. -/
def onError (a : CheckArgs) (s : CheckState) : CheckState :=
  let progress := s.progress + 1
  let trace := s.trace ++ [.barValue progress, .barDetail progress a.retries]
  if progress < a.retries then
    { s with progress := progress, timers := s.timers + 1,
             trace := trace ++ [.setTimeout a.interval] }
  else
    { s with progress := progress, trace := trace ++ [.barClose],
             promise := s.promise.reject .timeout }

/-- The 'completed' handler of the progress bar (lines 36-39). -/
def onCompleted (s : CheckState) : CheckState :=
  { s with trace := s.trace ++ [.consoleLog "Progress bar completed", .barClose] }

/-- The 'aborted' handler of the progress bar (lines 40-44). It closes the bar
and rejects the promise; it holds no reference to a timer and clears none. -/
def onAborted (s : CheckState) : CheckState :=
  { s with trace := s.trace ++ [.consoleLog "Progress bar aborted", .barClose],
           promise := s.promise.reject .abortedByUser }

/-- One event of the environment, dispatched to the callback registered for
it. The handlers themselves have no guard. What is excluded is an event that
has no source: a response needs a request that has had neither response nor
error, an error needs a request that has not emitted one yet (with or without
a response), and an expiry needs a timer that was set. Such an event leaves
the state as it is. -/
def step (a : CheckArgs) (s : CheckState) : Event → CheckState
  | .response statusCode =>
      if 0 < s.awaiting then
        onResponse { s with awaiting := s.awaiting - 1, responded := s.responded + 1 } statusCode
      else s
  | .requestError =>
      if 0 < s.awaiting then onError a { s with awaiting := s.awaiting - 1 }
      else if 0 < s.responded then onError a { s with responded := s.responded - 1 }
      else s
  | .timerFired =>
      if 0 < s.timers then attempt a { s with timers := s.timers - 1 } else s
  | .barCompleted => onCompleted s
  | .barAborted => onAborted s

/-- The state of `checkService(a)` after the environment has delivered the
events `evs` in order. -/
def run (a : CheckArgs) (evs : List Event) : CheckState :=
  evs.foldl (step a) (checkService a)

/-- Number of `http.get` calls in a trace. -/
def gets : List Effect → Nat
  | [] => 0
  | .httpGet _ :: es => gets es + 1
  | _ :: es => gets es

/-- Number of `setTimeout` calls in a trace. -/
def waits : List Effect → Nat
  | [] => 0
  | .setTimeout _ :: es => waits es + 1
  | _ :: es => waits es

/-- Sum of the delays of the `setTimeout` calls in a trace. -/
def totalWait : List Effect → Nat
  | [] => 0
  | .setTimeout d :: es => totalWait es + d
  | _ :: es => totalWait es

/-- The operations performed on the progress bar after its construction. -/
def barOps : List Effect → List Effect
  | [] => []
  | .barValue v :: es => .barValue v :: barOps es
  | .barDetail p r :: es => .barDetail p r :: barOps es
  | .barSetCompleted :: es => .barSetCompleted :: barOps es
  | .barClose :: es => .barClose :: barOps es
  | _ :: es => barOps es

/-- The reports that the script makes through the progress bar: the count of
an attempt out of the maximum, and completion. -/
inductive ProgressEvent where
  | attempt (current max : Nat)
  | completed
  deriving DecidableEq, Repr

/-- The progress reports in a trace: the pair of assignments to `value` and
`detail` of lines 58-59 is one `attempt(progress, retries)` report, carried
here by the `detail` assignment which holds both numbers. -/
def progressEvents : List Effect → List ProgressEvent
  | [] => []
  | .barDetail p r :: es => .attempt p r :: progressEvents es
  | .barSetCompleted :: es => .completed :: progressEvents es
  | _ :: es => progressEvents es

/-- The call waits for nothing: no request awaits its outcome and no timer is
pending. -/
def CheckState.quiescent (s : CheckState) : Bool :=
  s.awaiting == 0 && s.timers == 0

/-- The events of `j` attempts that each end in a request error and whose
following wait expires. -/
def failedRounds : Nat → List Event
  | 0 => []
  | j + 1 => failedRounds j ++ [.requestError, .timerFired]

/-- The effects of `j` failed attempts that are each followed by a wait: the
request, the progress report and the timer of attempt `i + 1` for `i < j`. -/
def failedTrace (a : CheckArgs) : Nat → List Effect
  | 0 => []
  | j + 1 => failedTrace a j ++
      [.httpGet a.url, .barValue (j + 1), .barDetail (j + 1) a.retries, .setTimeout a.interval]

/-- Outcome of one probe of the endpoint. -/
inductive ProbeOutcome where
  | error
  | status (code : Nat)
  deriving DecidableEq, Repr

/-- The event that delivers a probe outcome. -/
def ProbeOutcome.toEvent : ProbeOutcome → Event
  | .error => .requestError
  | .status code => .response code

/-- The polling loop against an endpoint whose `i`-th probe (counted from 0)
has the one outcome `outcomes i`: whatever the call waits for is delivered, a
request outcome or the expiry of the timer, until it waits for nothing or
`fuel` events have been delivered. -/
def drive (a : CheckArgs) (outcomes : Nat → ProbeOutcome) : Nat → CheckState → CheckState
  | 0, s => s
  | fuel + 1, s =>
      if 0 < s.awaiting then
        drive a outcomes fuel (step a s (outcomes (gets s.trace - 1)).toEvent)
      else if 0 < s.timers then
        drive a outcomes fuel (step a s .timerFired)
      else s

/-- The endpoint never responds to `checkService` with `retries = n`: all `n`
requests end in a request error, and each wait in between expires. -/
def neverResponds (n : Nat) : List Event :=
  failedRounds (n - 1) ++ [.requestError]

/-- The first `k - 1` requests end in a request error, each followed by its
wait, and the `k`-th request receives a response with status `code`. -/
def respondsAt (k code : Nat) : List Event :=
  failedRounds (k - 1) ++ [.response code]

/-- Attempts `1, ..., i` end in a request error, the waits between them expire,
and during the wait that follows attempt `i` the progress bar emits 'aborted'. -/
def abortedDuringWait (i : Nat) : List Event :=
  failedRounds (i - 1) ++ [.requestError, .barAborted]

/-- What holds of every state a `checkService` call with `retries ≥ 1` can
reach. -/
def Reachable (a : CheckArgs) (s : CheckState) : Prop :=
  s.progress ≤ a.retries ∧
  waits s.trace = min s.progress (a.retries - 1) ∧
  gets s.trace + s.timers = waits s.trace + 1 ∧
  s.awaiting + s.responded + s.timers ≤ 1 ∧
  (0 < s.awaiting + s.responded + s.timers → s.progress < a.retries) ∧
  totalWait s.trace = waits s.trace * a.interval ∧
  (∀ v, Effect.barValue v ∈ s.trace → v ≤ a.retries) ∧
  (∀ p r, Effect.barDetail p r ∈ s.trace → p ≤ a.retries) ∧
  (s.quiescent = true → s.promise ≠ .pending)

/-- Number of deliveries after which a reachable state waits for nothing. -/
def budget (a : CheckArgs) (s : CheckState) : Nat :=
  if 0 < s.awaiting then 2 * (a.retries - s.progress) - 1
  else if 0 < s.timers then 2 * (a.retries - s.progress)
  else 0

/-! ## Values read from the configuration file -/

/-- A number as `JSON.parse` yields it. Every finite double is a rational; a
literal beyond the range of doubles parses to an infinity. -/
inductive JsNumber where
  | finite (q : ℚ)
  | infinity (negative : Bool)

/-- A value as `JSON.parse` yields it. An object keeps its fields in the order
of the text. -/
inductive JsValue where
  | null
  | bool (b : Bool)
  | number (x : JsNumber)
  | string (s : String)
  | array (items : List JsValue)
  | object (fields : List (String × JsValue))

/-- The conversion to boolean that an `if` applies to its condition: `null`,
`false`, zero and the empty string are falsy, every other value is truthy. -/
def JsValue.truthy : JsValue → Bool
  | .null => false
  | .bool b => b
  | .number (.finite q) => decide (q ≠ 0)
  | .number (.infinity _) => true
  | .string s => decide (s ≠ "")
  | .array _ => true
  | .object _ => true

/-- An exception value: the name of its constructor and its message. -/
structure JsError where
  name : String
  message : String
  deriving DecidableEq, Repr

/-- The field of a parsed object: when the text repeats a key, `JSON.parse`
keeps the last occurrence. -/
def lookupField (fields : List (String × JsValue)) (key : String) : Option JsValue :=
  (fields.reverse.find? (fun kv => kv.1 == key)).map (fun kv => kv.2)

/-- The property read `config.key` for the two keys the script reads,
`gradio_port` and `pdf2zh_path`: it throws a TypeError on `null`, finds the
field of an object, and is `undefined` (here `none`) on every other value,
whose prototypes define neither key. -/
def getProp (config : JsValue) (key : String) : Except JsError (Option JsValue) :=
  match config with
  | .null =>
      .error ⟨"TypeError", "Cannot read properties of null (reading '" ++ key ++ "')"⟩
  | .object fields => .ok (lookupField fields key)
  | _ => .ok none

/-- What the script finds at `configPath` when it reads it. -/
inductive ConfigFile where
  /-- The call `fs.existsSync(configPath)` returns false -/
  | absent
  /-- The call `fs.readFileSync` throws an error with this message -/
  | unreadable (message : String)
  /-- The call `JSON.parse` throws a SyntaxError with this message -/
  | malformed (message : String)
  /-- The call `JSON.parse` returns this value -/
  | parsed (config : JsValue)

/-- The effects of a piece of code together with its completion: a returned
value or a thrown exception. -/
structure Outcome (α : Type) where
  effects : List Effect
  result : Except JsError α

/-- The identifiers that `main.js` declares: the names destructured from the
`require` calls of lines 2-8 and the module-level `let` and `const`
declarations. -/
def moduleBindings : List String :=
  ["app", "BrowserWindow", "Menu", "ipcMain", "exec", "kill", "path", "fs", "http",
   "ProgressBar", "processInstance", "configPath", "checkService", "getPortFromConfig",
   "getpdf2zhpathFromConfig", "port", "pdf2zh_path", "targetURL", "createWindow"]

/-- The `catch` block that both configuration readers share, word for word
(lines 87-92 and 107-112). After `console.error` it evaluates
`dialog.showErrorBox(...)`; `dialog` is not declared in `main.js` (line 2
destructures `app`, `BrowserWindow`, `Menu` and `ipcMain` only) and the host
defines no global of that name, so the evaluation throws a ReferenceError and
`app.quit()` and `return null` are not reached. -/
def configCatch (error : JsError) : Outcome JsValue :=
  let logged := [Effect.consoleError ("Failed to load config: " ++ error.message)]
  if "dialog" ∈ moduleBindings then
    { effects := logged ++
        [.showErrorBox "配置加载失败" ("无法加载配置文件：" ++ error.message), .appQuit],
      result := .ok .null }
  else
    { effects := logged, result := .error ⟨"ReferenceError", "dialog is not defined"⟩ }

/-- The `try` block of `getPortFromConfig` (lines 77-86). -/
def tryGetPort (file : ConfigFile) : Except JsError JsValue :=
  match file with
  | .absent => .error ⟨"Error", "配置文件不存在"⟩
  | .unreadable message => .error ⟨"Error", message⟩
  | .malformed message => .error ⟨"SyntaxError", message⟩
  | .parsed config =>
      match getProp config "gradio_port" with
      | .error e => .error e
      | .ok (some v) =>
          if v.truthy then .ok v
          else .error ⟨"Error", "配置文件中缺少 \"gradio_port\" 配置项"⟩
      | .ok none => .error ⟨"Error", "配置文件中缺少 \"gradio_port\" 配置项"⟩

/-- The function `getPortFromConfig` (lines 75-93). -/
def getPortFromConfig (file : ConfigFile) : Outcome JsValue :=
  match tryGetPort file with
  | .ok v => { effects := [], result := .ok v }
  | .error e => configCatch e

/-- The `try` block of `getpdf2zhpathFromConfig` (lines 97-106). -/
def tryGetpdf2zhpath (file : ConfigFile) : Except JsError JsValue :=
  match file with
  | .absent => .error ⟨"Error", "配置文件不存在"⟩
  | .unreadable message => .error ⟨"Error", message⟩
  | .malformed message => .error ⟨"SyntaxError", message⟩
  | .parsed config =>
      match getProp config "pdf2zh_path" with
      | .error e => .error e
      | .ok (some v) =>
          if v.truthy then .ok v
          else .error ⟨"Error", "配置文件中缺少 \"pdf2zh_path\" 配置项"⟩
      | .ok none => .error ⟨"Error", "配置文件中缺少 \"pdf2zh_path\" 配置项"⟩

/-- The function `getpdf2zhpathFromConfig` (lines 95-113). -/
def getpdf2zhpathFromConfig (file : ConfigFile) : Outcome JsValue :=
  match tryGetpdf2zhpath file with
  | .ok v => { effects := [], result := .ok v }
  | .error e => configCatch e

/-! ## Module top level and app.whenReady (lines 115-173) -/

/-- What the script takes from the engine and the platform it runs on. -/
structure Host where
  /-- The conversion of a number to a string by the engine -/
  numberToString : JsNumber → String
  /-- The value of `process.platform` -/
  platform : String

mutual
/-- The conversion to string that a template literal applies to `${...}`. A
parsed object is converted through its `toString` and `valueOf`: a field of
the record named `toString` hides the inherited method and is not callable,
and `valueOf`, own or inherited, yields no primitive, so the conversion throws
a TypeError; without such a field the inherited `toString` yields
`[object Object]`. A parsed array has no own method and joins its elements. -/
def JsValue.toStr (host : Host) : JsValue → Except JsError String
  | .null => .ok "null"
  | .bool b => .ok (if b then "true" else "false")
  | .number x => .ok (host.numberToString x)
  | .string s => .ok s
  | .array items => JsValue.joinItems host items
  | .object fields =>
      if (lookupField fields "toString").isSome then
        .error ⟨"TypeError", "Cannot convert object to primitive value"⟩
      else .ok "[object Object]"
/-- The conversion of an array: its elements converted from left to right and
joined by commas, `null` elements rendered as the empty string; the first
element whose conversion throws ends it. -/
def JsValue.joinItems (host : Host) : List JsValue → Except JsError String
  | [] => .ok ""
  | [.null] => .ok ""
  | [x] => JsValue.toStr host x
  | .null :: y :: more =>
      match JsValue.joinItems host (y :: more) with
      | .error e => .error e
      | .ok others => .ok ("," ++ others)
  | x :: y :: more =>
      match JsValue.toStr host x with
      | .error e => .error e
      | .ok first =>
          match JsValue.joinItems host (y :: more) with
          | .error e => .error e
          | .ok others => .ok (first ++ "," ++ others)
end

/-- The module-level constants of lines 115-117. -/
structure Launcher where
  port : JsValue
  pdf2zh_path : JsValue
  targetURL : String

/-- The evaluation of the module up to line 117: the two readers are called in
turn, each reading the file anew, then the template literal of `targetURL`
converts the port to a string. An exception thrown by any of the three ends
the evaluation of the module there. -/
def mainModule (host : Host) (read1 read2 : ConfigFile) : Outcome Launcher :=
  let r1 := getPortFromConfig read1
  match r1.result with
  | .error e => { effects := r1.effects, result := .error e }
  | .ok port =>
      let r2 := getpdf2zhpathFromConfig read2
      match r2.result with
      | .error e => { effects := r1.effects ++ r2.effects, result := .error e }
      | .ok pdf2zh_path =>
          match port.toStr host with
          | .error e => { effects := r1.effects ++ r2.effects, result := .error e }
          | .ok rendered =>
              { effects := r1.effects ++ r2.effects,
                result := .ok
                  { port := port, pdf2zh_path := pdf2zh_path,
                    targetURL := "http://localhost:" ++ rendered ++ "/" } }

/-- The template literal of line 155, which converts `pdf2zh_path` and then
`port`; it is evaluated before `exec` is called. -/
def execCommand (host : Host) (l : Launcher) : Except JsError String :=
  match l.pdf2zh_path.toStr host with
  | .error e => .error e
  | .ok path =>
      match l.port.toStr host with
      | .error e => .error e
      | .ok port => .ok (path ++ " -i --electron --serverport=" ++ port)

/-- The arguments of the call `checkService(targetURL)` of line 163: `retries`
and `interval` take their defaults. -/
def readyCheck (l : Launcher) : CheckArgs :=
  { url := l.targetURL }

/-- The function `createWindow` (lines 119-152) up to its return. -/
def createWindow (l : Launcher) : List Effect :=
  [.setApplicationMenuNull, .loadURL l.targetURL]

/-- The handlers of line 164 and line 168, run when the promise of
`checkService` settles. The `catch` handler logs the error (here by its
message) and then evaluates `dialog`, which throws as in `configCatch`. -/
def onSettled (l : Launcher) : PromiseState → List Effect
  | .pending => []
  | .fulfilled => [.consoleLog "Service is ready."] ++ createWindow l
  | .rejected reason => [.consoleError ("Service failed to start: " ++ reason.message)]

/-- One run of the application: the effects of the module evaluation, of the
`app.whenReady` callback, of the `checkService` call under the events `evs`,
and of the handler of its outcome, grouped by the code that performs them.
When the module evaluation throws, line 154 is not reached and no callback is
registered; when the template literal of line 155 throws, neither `exec` nor
`checkService` is called. -/
structure AppRun where
  moduleEffects : List Effect
  readyEffects : List Effect
  /-- The state of the `checkService` call of line 163, if it is made -/
  poll : Option CheckState
  settledEffects : List Effect
  /-- The exception that ended the evaluation of the module, if any -/
  aborted : Option JsError
  /-- The exception that ended the `app.whenReady` callback, if any -/
  readyError : Option JsError

/-- The run of the application on the given file contents and events. -/
def appRun (host : Host) (read1 read2 : ConfigFile) (evs : List Event) : AppRun :=
  let m := mainModule host read1 read2
  match m.result with
  | .error e =>
      { moduleEffects := m.effects, readyEffects := [], poll := none,
        settledEffects := [], aborted := some e, readyError := none }
  | .ok l =>
      match execCommand host l with
      | .error e =>
          { moduleEffects := m.effects, readyEffects := [], poll := none,
            settledEffects := [], aborted := none, readyError := some e }
      | .ok command =>
          let s := run (readyCheck l) evs
          { moduleEffects := m.effects, readyEffects := [.exec command],
            poll := some s, settledEffects := onSettled l s.promise,
            aborted := none, readyError := none }

/-- The effects of the `checkService` call of a run. -/
def AppRun.checkEffects (r : AppRun) : List Effect :=
  match r.poll with
  | some s => s.trace
  | none => []

/-- All effects of a run. -/
def AppRun.allEffects (r : AppRun) : List Effect :=
  r.moduleEffects ++ r.readyEffects ++ r.checkEffects ++ r.settledEffects

/-- Number of `exec` calls in a trace. -/
def execs : List Effect → Nat
  | [] => 0
  | .exec _ :: es => execs es + 1
  | _ :: es => execs es

/-! ## Termination of the spawned process (lines 135-147 and 181-196) -/

/-- The object returned by `exec`: its `pid` is undefined when the spawn
failed. -/
structure ChildProcess where
  pid : Option Nat
  deriving DecidableEq, Repr

/-- The module-level variable `processInstance`: undefined until line 155
assigns it. No other statement of the script assigns it. -/
structure AppState where
  processInstance : Option ChildProcess
  deriving DecidableEq, Repr

/-- The condition `processInstance && processInstance.pid` of both handlers,
with the pid when it holds: the variable is assigned, its pid is defined and
is not zero. -/
def livePid (st : AppState) : Option Nat :=
  match st.processInstance with
  | some ⟨some pid⟩ => if pid ≠ 0 then some pid else none
  | _ => none

/-- The handler of the 'window-close' message (lines 135-147): the state it
leaves and the effects it performs. -/
def onWindowClose (st : AppState) : AppState × List Effect :=
  match livePid st with
  | some pid => (st, [.kill pid "SIGTERM"])
  | none => (st, [.consoleWarn "No process is running."])

/-- The handler of 'window-all-closed' (lines 181-196). -/
def onWindowAllClosed (host : Host) (st : AppState) : AppState × List Effect :=
  let signalled : List Effect :=
    match livePid st with
    | some pid => [.kill pid "SIGTERM"]
    | none => [.consoleWarn "No process is running."]
  (st, signalled ++ (if host.platform ≠ "darwin" then [.appQuit] else []))

/-- The callback passed to `kill` (lines 137-143 and 183-189), called with the
error of the signal delivery if there is one: it only logs. -/
def onKilled (pid : Nat) (err : Option String) : List Effect :=
  match err with
  | some message => [.consoleError ("Failed to kill process: " ++ message)]
  | none => [.consoleLog ("Successfully killed process with PID: " ++ toString pid)]

/-- The 'window-close' handler followed by the 'window-all-closed' handler. -/
def terminateTwice (host : Host) (st : AppState) : AppState × List Effect :=
  let first := onWindowClose st
  let second := onWindowAllClosed host first.1
  (second.1, first.2 ++ second.2)

/-- Number of `kill` calls in a trace. -/
def kills : List Effect → Nat
  | [] => 0
  | .kill _ _ :: es => kills es + 1
  | _ :: es => kills es

/-! ## Lemmas on traces -/

lemma gets_append (xs ys : List Effect) : gets (xs ++ ys) = gets xs + gets ys := by
  induction xs with
  | nil => simp [gets]
  | cons e es ih => cases e <;> simp [gets, ih]; omega

lemma waits_append (xs ys : List Effect) : waits (xs ++ ys) = waits xs + waits ys := by
  induction xs with
  | nil => simp [waits]
  | cons e es ih => cases e <;> simp [waits, ih]; omega

lemma totalWait_append (xs ys : List Effect) :
    totalWait (xs ++ ys) = totalWait xs + totalWait ys := by
  induction xs with
  | nil => simp [totalWait]
  | cons e es ih => cases e <;> simp [totalWait, ih]; omega

lemma barOps_append (xs ys : List Effect) : barOps (xs ++ ys) = barOps xs ++ barOps ys := by
  induction xs with
  | nil => simp [barOps]
  | cons e es ih => cases e <;> simp [barOps, ih]

lemma progressEvents_append (xs ys : List Effect) :
    progressEvents (xs ++ ys) = progressEvents xs ++ progressEvents ys := by
  induction xs with
  | nil => simp [progressEvents]
  | cons e es ih => cases e <;> simp [progressEvents, ih]

lemma gets_failedTrace (a : CheckArgs) (j : Nat) : gets (failedTrace a j) = j := by
  induction j with
  | zero => simp [failedTrace, gets]
  | succ j ih => simp [failedTrace, gets_append, gets, ih]

lemma waits_failedTrace (a : CheckArgs) (j : Nat) : waits (failedTrace a j) = j := by
  induction j with
  | zero => simp [failedTrace, waits]
  | succ j ih => simp [failedTrace, waits_append, waits, ih]

lemma totalWait_failedTrace (a : CheckArgs) (j : Nat) :
    totalWait (failedTrace a j) = j * a.interval := by
  induction j with
  | zero => simp [failedTrace, totalWait]
  | succ j ih => simp [failedTrace, totalWait_append, totalWait, ih, Nat.succ_mul]

lemma barOps_failedTrace (a : CheckArgs) (j : Nat) :
    barOps (failedTrace a j) =
      (List.range j).flatMap (fun i => [.barValue (i + 1), .barDetail (i + 1) a.retries]) := by
  induction j with
  | zero => simp [failedTrace, barOps]
  | succ j ih => simp [failedTrace, barOps_append, barOps, ih, List.range_succ]

lemma setTimeout_failedTrace (a : CheckArgs) (j : Nat) :
    ∀ d, Effect.setTimeout d ∈ failedTrace a j → d = a.interval := by
  induction j with
  | zero => intro d hd; simp [failedTrace] at hd
  | succ j ih =>
      intro d hd
      simp only [failedTrace, List.mem_append, List.mem_cons, reduceCtorEq,
        Effect.setTimeout.injEq, List.not_mem_nil, or_false, false_or] at hd
      rcases hd with hd | hd
      · exact ih d hd
      · exact hd

lemma progressEvents_failedTrace (a : CheckArgs) (j : Nat) :
    progressEvents (failedTrace a j) =
      (List.range j).map (fun i => .attempt (i + 1) a.retries) := by
  induction j with
  | zero => simp [failedTrace, progressEvents]
  | succ j ih =>
      simp [failedTrace, progressEvents_append, progressEvents, ih, List.range_succ]

/-! ## Lemmas on runs -/

lemma run_append (a : CheckArgs) (xs ys : List Event) :
    run a (xs ++ ys) = ys.foldl (step a) (run a xs) := by
  simp [run, List.foldl_append]

/-- After `j < retries` failed attempts and their waits, attempt `j + 1` awaits
its outcome and the promise is pending. -/
lemma run_failedRounds (a : CheckArgs) (j : Nat) (h : j < a.retries) :
    run a (failedRounds j) =
      { progress := j, promise := .pending, awaiting := 1, responded := 0, timers := 0,
        trace := .newProgressBar a.retries :: failedTrace a j ++ [.httpGet a.url] } := by
  induction j with
  | zero => simp [run, failedRounds, checkService, attempt, failedTrace]
  | succ j ih =>
      have hj : j < a.retries := by omega
      rw [failedRounds, run_append, ih hj]
      simp [step, onError, attempt, h, failedTrace]

/-- A settled promise keeps its state whatever happens next. -/
lemma step_promise_of_settled (a : CheckArgs) (s : CheckState) (e : Event)
    (h : s.promise ≠ .pending) : (step a s e).promise = s.promise := by
  cases hp : s.promise with
  | pending => exact absurd hp h
  | fulfilled =>
      cases e <;>
        simp only [step, onResponse, onError, onCompleted, onAborted, attempt] <;>
        (try split_ifs) <;>
        simp [hp, PromiseState.resolve, PromiseState.reject]
  | rejected r =>
      cases e <;>
        simp only [step, onResponse, onError, onCompleted, onAborted, attempt] <;>
        (try split_ifs) <;>
        simp [hp, PromiseState.resolve, PromiseState.reject]

lemma foldl_promise_of_settled (a : CheckArgs) (evs : List Event) (s : CheckState)
    (h : s.promise ≠ .pending) : (evs.foldl (step a) s).promise = s.promise := by
  induction evs generalizing s with
  | nil => rfl
  | cons e es ih =>
      have h1 := step_promise_of_settled a s e h
      rw [List.foldl_cons, ih (step a s e) (by rw [h1]; exact h), h1]

/-- A call with no request awaiting its outcome, no timer, and no retry left
for a late error of a request that has responded, issues no request and sets
no timer, whatever happens next. -/
lemma step_of_spent (a : CheckArgs) (s : CheckState) (e : Event)
    (h1 : s.awaiting = 0) (h2 : s.timers = 0)
    (h3 : s.responded = 0 ∨ a.retries ≤ s.progress + 1) :
    ((step a s e).awaiting = 0 ∧ (step a s e).timers = 0 ∧
      ((step a s e).responded = 0 ∨ a.retries ≤ (step a s e).progress + 1)) ∧
      gets (step a s e).trace = gets s.trace ∧ waits (step a s e).trace = waits s.trace := by
  cases e with
  | response c => simp [step, h1, h2, h3]
  | requestError =>
      by_cases hr : 0 < s.responded
      · have hn : ¬ s.progress + 1 < a.retries := by omega
        simp [step, onError, h1, h2, hr, hn, gets_append, waits_append, gets, waits]
        omega
      · have hr0 : s.responded = 0 := by omega
        simp [step, h1, h2, hr0]
  | timerFired => simp [step, h1, h2, h3]
  | barCompleted => simp [step, onCompleted, h1, h2, h3, gets_append, waits_append, gets, waits]
  | barAborted => simp [step, onAborted, h1, h2, h3, gets_append, waits_append, gets, waits]

lemma foldl_of_spent (a : CheckArgs) (evs : List Event) (s : CheckState)
    (h1 : s.awaiting = 0) (h2 : s.timers = 0)
    (h3 : s.responded = 0 ∨ a.retries ≤ s.progress + 1) :
    gets (evs.foldl (step a) s).trace = gets s.trace ∧
      waits (evs.foldl (step a) s).trace = waits s.trace := by
  induction evs generalizing s with
  | nil => exact ⟨rfl, rfl⟩
  | cons e es ih =>
      obtain ⟨⟨q1, q2, q3⟩, g, w⟩ := step_of_spent a s e h1 h2 h3
      obtain ⟨g1, w1⟩ := ih (step a s e) q1 q2 q3
      exact ⟨by rw [List.foldl_cons, g1, g], by rw [List.foldl_cons, w1, w]⟩

/-- A call with no request awaiting its outcome and no timer issues no request
and sets no timer as long as no request emits 'error'. -/
lemma foldl_of_no_error (a : CheckArgs) (evs : List Event) (s : CheckState)
    (h1 : s.awaiting = 0) (h2 : s.timers = 0) (h3 : Event.requestError ∉ evs) :
    gets (evs.foldl (step a) s).trace = gets s.trace ∧
      waits (evs.foldl (step a) s).trace = waits s.trace := by
  induction evs generalizing s with
  | nil => exact ⟨rfl, rfl⟩
  | cons e es ih =>
      have he : e ≠ .requestError := fun h => h3 (by simp [h])
      have hes : Event.requestError ∉ es := fun h => h3 (by simp [h])
      have key : (step a s e).awaiting = 0 ∧ (step a s e).timers = 0 ∧
          gets (step a s e).trace = gets s.trace ∧
          waits (step a s e).trace = waits s.trace := by
        cases e with
        | response c => simp [step, h1, h2]
        | requestError => exact absurd rfl he
        | timerFired => simp [step, h1, h2]
        | barCompleted =>
            simp [step, onCompleted, h1, h2, gets_append, waits_append, gets, waits]
        | barAborted =>
            simp [step, onAborted, h1, h2, gets_append, waits_append, gets, waits]
      obtain ⟨q1, q2, g, w⟩ := key
      obtain ⟨g1, w1⟩ := ih (step a s e) q1 q2 hes
      exact ⟨by rw [List.foldl_cons, g1, g], by rw [List.foldl_cons, w1, w]⟩

/-- The state in which the `n`-th request error leaves a call with
`retries = n`. -/
lemma run_neverResponds (a : CheckArgs) (h : 1 ≤ a.retries) :
    run a (neverResponds a.retries) =
      { progress := a.retries, promise := .rejected .timeout, awaiting := 0, responded := 0,
        timers := 0,
        trace := .newProgressBar a.retries :: failedTrace a (a.retries - 1) ++
          [.httpGet a.url, .barValue a.retries, .barDetail a.retries a.retries, .barClose] } := by
  have hj : a.retries - 1 < a.retries := by omega
  have e1 : a.retries - 1 + 1 = a.retries := by omega
  rw [neverResponds, run_append, run_failedRounds a _ hj]
  simp [step, onError, e1, PromiseState.reject]

/-- The state in which a response to the `k`-th request leaves the call, the
earlier requests having failed. -/
lemma run_respondsAt (a : CheckArgs) (k code : Nat) (h1 : 1 ≤ k) (h2 : k ≤ a.retries) :
    run a (respondsAt k code) =
      onResponse
        { progress := k - 1, promise := .pending, awaiting := 0, responded := 1, timers := 0,
          trace := .newProgressBar a.retries :: failedTrace a (k - 1) ++ [.httpGet a.url] }
        code := by
  have hj : k - 1 < a.retries := by omega
  rw [respondsAt, run_append, run_failedRounds a _ hj]
  simp [step]

/-! ## Claims on checkService -/

/-- C1: with `retries = n ≥ 1` and `interval = t`, when every request ends in a
request error, the promise is still pending while the `n`-th request is in
flight, the `n`-th error rejects it with the timeout error, exactly `n`
requests have been issued and exactly `n - 1` timers set, each of `t` ms (a
total of `(n - 1) * t`), and whatever happens afterwards the promise stays rejected with
the timeout error (it never resolves) and no further request or timer follows. -/
theorem checkService_never_responds (a : CheckArgs) (h : 1 ≤ a.retries) :
    (run a (failedRounds (a.retries - 1))).promise = .pending ∧
    (run a (neverResponds a.retries)).promise = .rejected .timeout ∧
    gets (run a (neverResponds a.retries)).trace = a.retries ∧
    waits (run a (neverResponds a.retries)).trace = a.retries - 1 ∧
    totalWait (run a (neverResponds a.retries)).trace = (a.retries - 1) * a.interval ∧
    (∀ d, Effect.setTimeout d ∈ (run a (neverResponds a.retries)).trace → d = a.interval) ∧
    ∀ more : List Event,
      (run a (neverResponds a.retries ++ more)).promise = .rejected .timeout ∧
      (run a (neverResponds a.retries ++ more)).promise ≠ .fulfilled ∧
      gets (run a (neverResponds a.retries ++ more)).trace = a.retries ∧
      waits (run a (neverResponds a.retries ++ more)).trace = a.retries - 1 := by
  have hj : a.retries - 1 < a.retries := by omega
  have hs := run_neverResponds a h
  have hg : gets (run a (neverResponds a.retries)).trace = a.retries := by
    rw [hs]
    simp [gets, gets_append, gets_failedTrace]
    omega
  have hw : waits (run a (neverResponds a.retries)).trace = a.retries - 1 := by
    rw [hs]
    simp [waits, waits_append, waits_failedTrace]
  refine ⟨by rw [run_failedRounds a _ hj], by rw [hs], hg, hw, ?_, ?_, ?_⟩
  · rw [hs]
    simp [totalWait, totalWait_append, totalWait_failedTrace]
  · intro d hd
    rw [hs] at hd
    simp only [List.mem_cons, List.mem_append, reduceCtorEq, List.not_mem_nil, or_false,
      false_or] at hd
    exact setTimeout_failedTrace a _ d hd
  · intro more
    have hp : (run a (neverResponds a.retries)).promise ≠ .pending := by
      rw [hs]; simp
    obtain ⟨g, w⟩ := foldl_of_spent a more (run a (neverResponds a.retries))
      (by rw [hs]) (by rw [hs]) (Or.inl (by rw [hs]))
    have p := foldl_promise_of_settled a more _ hp
    rw [run_append]
    refine ⟨?_, ?_, by rw [g, hg], by rw [w, hw]⟩
    · rw [p, hs]
    · rw [p, hs]; simp

/-- C1 at `retries = 3`, `interval = 100`. -/
theorem checkService_never_responds_witness :
    gets (run { url := "http://localhost:7860/", retries := 3, interval := 100 }
      (neverResponds 3)).trace = 3 ∧
    totalWait (run { url := "http://localhost:7860/", retries := 3, interval := 100 }
      (neverResponds 3)).trace = 200 :=
  have h := checkService_never_responds
    { url := "http://localhost:7860/", retries := 3, interval := 100 } (by decide)
  ⟨h.2.2.1, h.2.2.2.2.1⟩

/-- C2, as stated, fails for `retries = 3`, `k = 1`: the first request
receives status 200 and the promise is fulfilled after one request, but the
same request then emits 'error'; its handler, which is still attached, counts
a retry and sets the timer, and the expiry of the timer issues a second
request. -/
theorem checkService_ready_at_counterexample :
    (run { url := "http://localhost:7860/", retries := 3, interval := 100 }
      (respondsAt 1 200)).promise = .fulfilled ∧
    gets (run { url := "http://localhost:7860/", retries := 3, interval := 100 }
      (respondsAt 1 200)).trace = 1 ∧
    (run { url := "http://localhost:7860/", retries := 3, interval := 100 }
      (respondsAt 1 200 ++ [.requestError, .timerFired])).trace =
      [.newProgressBar 3, .httpGet "http://localhost:7860/", .barSetCompleted,
       .barValue 1, .barDetail 1 3, .setTimeout 100, .httpGet "http://localhost:7860/"] ∧
    gets (run { url := "http://localhost:7860/", retries := 3, interval := 100 }
      (respondsAt 1 200 ++ [.requestError, .timerFired])).trace = 2 ∧
    ¬ (∀ more : List Event,
        gets (run { url := "http://localhost:7860/", retries := 3, interval := 100 }
          (respondsAt 1 200 ++ more)).trace = 1) := by
  refine ⟨by decide, by decide, by decide, by decide, ?_⟩
  intro h
  exact absurd (h [.requestError, .timerFired]) (by decide)

/-- C2, amended: with `retries = n ≥ 1` and `1 ≤ k ≤ n`, when the first `k - 1`
requests end in a request error and the `k`-th receives status 200, the
promise is fulfilled with exactly `k` requests issued, and it stays fulfilled
whatever happens afterwards. No further request is issued as long as no
request emits 'error' afterwards, and none at all when `k = n`. When `k < n`
and the `k`-th request emits 'error' after its response, a timer is set and
its expiry issues request `k + 1`. -/
theorem checkService_ready_at (a : CheckArgs) (k : Nat) (h1 : 1 ≤ k) (h2 : k ≤ a.retries) :
    (run a (respondsAt k 200)).promise = .fulfilled ∧
    gets (run a (respondsAt k 200)).trace = k ∧
    (∀ more : List Event, (run a (respondsAt k 200 ++ more)).promise = .fulfilled) ∧
    (∀ more : List Event, Event.requestError ∉ more →
      gets (run a (respondsAt k 200 ++ more)).trace = k) ∧
    (k = a.retries → ∀ more : List Event,
      gets (run a (respondsAt k 200 ++ more)).trace = k) ∧
    (k < a.retries →
      (run a (respondsAt k 200 ++ [.requestError, .timerFired])).trace =
        (run a (respondsAt k 200)).trace ++
          [.barValue k, .barDetail k a.retries, .setTimeout a.interval, .httpGet a.url] ∧
      gets (run a (respondsAt k 200 ++ [.requestError, .timerFired])).trace = k + 1) := by
  have hs := run_respondsAt a k 200 h1 h2
  have e1 : k - 1 + 1 = k := by omega
  have hg : gets (run a (respondsAt k 200)).trace = k := by
    rw [hs]
    simp [onResponse, gets, gets_append, gets_failedTrace]
    omega
  have hp : (run a (respondsAt k 200)).promise = .fulfilled := by
    rw [hs]; simp [onResponse, PromiseState.resolve]
  have ha : (run a (respondsAt k 200)).awaiting = 0 := by rw [hs]; simp [onResponse]
  have ht : (run a (respondsAt k 200)).timers = 0 := by rw [hs]; simp [onResponse]
  have hpr : (run a (respondsAt k 200)).progress = k - 1 := by rw [hs]; simp [onResponse]
  refine ⟨hp, hg, ?_, ?_, ?_, ?_⟩
  · intro more
    have p := foldl_promise_of_settled a more (run a (respondsAt k 200)) (by rw [hp]; simp)
    rw [run_append, p, hp]
  · intro more hm
    rw [run_append, (foldl_of_no_error a more _ ha ht hm).1, hg]
  · intro hk more
    rw [run_append, (foldl_of_spent a more _ ha ht (Or.inr (by rw [hpr]; omega))).1, hg]
  · intro hk
    have h3 : (run a (respondsAt k 200 ++ [.requestError, .timerFired])).trace =
        (run a (respondsAt k 200)).trace ++
          [.barValue k, .barDetail k a.retries, .setTimeout a.interval, .httpGet a.url] := by
      rw [run_append, hs]
      simp [onResponse, step, onError, attempt, e1, hk]
    refine ⟨h3, ?_⟩
    rw [h3, gets_append, hg]
    simp [gets]

/-- C2 amended, at `retries = 3`, `k = 2`. -/
theorem checkService_ready_at_witness :
    (run { url := "http://localhost:7860/", retries := 3, interval := 100 }
      (respondsAt 2 200)).promise = .fulfilled ∧
    gets (run { url := "http://localhost:7860/", retries := 3, interval := 100 }
      (respondsAt 2 200)).trace = 2 ∧
    gets (run { url := "http://localhost:7860/", retries := 3, interval := 100 }
      (respondsAt 2 200 ++ [.requestError, .timerFired])).trace = 2 + 1 :=
  have h := checkService_ready_at
    { url := "http://localhost:7860/", retries := 3, interval := 100 } 2 (by decide) (by decide)
  ⟨h.1, h.2.1, (h.2.2.2.2.2 (by decide)).2⟩

/-- C3, as stated, fails for `retries = 3`, `k = 1`, status 503: the promise
is rejected at once with the error that carries 503, but the same request then
emits 'error'; its handler sets a timer, and the expiry of the timer issues a
second request. -/
theorem checkService_unexpected_status_counterexample :
    (run { url := "http://localhost:7860/", retries := 3, interval := 100 }
      (respondsAt 1 503)).promise = .rejected (.statusCode 503) ∧
    gets (run { url := "http://localhost:7860/", retries := 3, interval := 100 }
      (respondsAt 1 503)).trace = 1 ∧
    waits (run { url := "http://localhost:7860/", retries := 3, interval := 100 }
      (respondsAt 1 503)).trace = 0 ∧
    (run { url := "http://localhost:7860/", retries := 3, interval := 100 }
      (respondsAt 1 503 ++ [.requestError, .timerFired])).trace =
      [.newProgressBar 3, .httpGet "http://localhost:7860/",
       .barValue 1, .barDetail 1 3, .setTimeout 100, .httpGet "http://localhost:7860/"] ∧
    ¬ (∀ more : List Event,
        gets (run { url := "http://localhost:7860/", retries := 3, interval := 100 }
          (respondsAt 1 503 ++ more)).trace = 1 ∧
        waits (run { url := "http://localhost:7860/", retries := 3, interval := 100 }
          (respondsAt 1 503 ++ more)).trace = 0) := by
  refine ⟨by decide, by decide, by decide, by decide, ?_⟩
  intro h
  exact absurd (h [.requestError, .timerFired]).1 (by decide)

/-- C3, amended: with `retries = n ≥ 1`, `k ≤ n` and a status `c ≠ 200`, when
the `k`-th request is the first to receive a response and its status is `c`,
the promise is rejected at once with the error that carries `c` (the response
callback performs no effect) and keeps this outcome whatever happens
afterwards; exactly `k` requests and `k - 1` timers precede it. No further
request is issued and no further timer set as long as no request emits 'error'
afterwards, and none at all when `k = n`. When `k < n` and the `k`-th request
emits 'error' after its response, a timer is set and its expiry issues request
`k + 1`. -/
theorem checkService_unexpected_status (a : CheckArgs) (k c : Nat)
    (h1 : 1 ≤ k) (h2 : k ≤ a.retries) (hc : c ≠ 200) :
    (run a (respondsAt k c)).promise = .rejected (.statusCode c) ∧
    (Rejection.statusCode c).message = "Service returned status code " ++ toString c ∧
    (run a (respondsAt k c)).trace = (run a (failedRounds (k - 1))).trace ∧
    gets (run a (respondsAt k c)).trace = k ∧
    waits (run a (respondsAt k c)).trace = k - 1 ∧
    (∀ more : List Event,
      (run a (respondsAt k c ++ more)).promise = .rejected (.statusCode c)) ∧
    (∀ more : List Event, Event.requestError ∉ more →
      gets (run a (respondsAt k c ++ more)).trace = k ∧
      waits (run a (respondsAt k c ++ more)).trace = k - 1) ∧
    (k = a.retries → ∀ more : List Event,
      gets (run a (respondsAt k c ++ more)).trace = k ∧
      waits (run a (respondsAt k c ++ more)).trace = k - 1) ∧
    (k < a.retries →
      (run a (respondsAt k c ++ [.requestError, .timerFired])).trace =
        (run a (respondsAt k c)).trace ++
          [.barValue k, .barDetail k a.retries, .setTimeout a.interval, .httpGet a.url] ∧
      gets (run a (respondsAt k c ++ [.requestError, .timerFired])).trace = k + 1 ∧
      waits (run a (respondsAt k c ++ [.requestError, .timerFired])).trace = k) := by
  have hj : k - 1 < a.retries := by omega
  have e1 : k - 1 + 1 = k := by omega
  have hs := run_respondsAt a k c h1 h2
  have hg : gets (run a (respondsAt k c)).trace = k := by
    rw [hs]
    simp [onResponse, hc, gets, gets_append, gets_failedTrace]
    omega
  have hw : waits (run a (respondsAt k c)).trace = k - 1 := by
    rw [hs]
    simp [onResponse, hc, waits, waits_append, waits_failedTrace]
  have hp : (run a (respondsAt k c)).promise = .rejected (.statusCode c) := by
    rw [hs]; simp [onResponse, hc, PromiseState.reject]
  have ha : (run a (respondsAt k c)).awaiting = 0 := by rw [hs]; simp [onResponse, hc]
  have ht : (run a (respondsAt k c)).timers = 0 := by rw [hs]; simp [onResponse, hc]
  have hpr : (run a (respondsAt k c)).progress = k - 1 := by rw [hs]; simp [onResponse, hc]
  refine ⟨hp, rfl, ?_, hg, hw, ?_, ?_, ?_, ?_⟩
  · rw [hs, run_failedRounds a _ hj]
    simp [onResponse, hc]
  · intro more
    have p := foldl_promise_of_settled a more (run a (respondsAt k c)) (by rw [hp]; simp)
    rw [run_append, p, hp]
  · intro more hm
    obtain ⟨g, w⟩ := foldl_of_no_error a more _ ha ht hm
    rw [run_append]
    exact ⟨by rw [g, hg], by rw [w, hw]⟩
  · intro hk more
    obtain ⟨g, w⟩ := foldl_of_spent a more _ ha ht (Or.inr (by rw [hpr]; omega))
    rw [run_append]
    exact ⟨by rw [g, hg], by rw [w, hw]⟩
  · intro hk
    have h3 : (run a (respondsAt k c ++ [.requestError, .timerFired])).trace =
        (run a (respondsAt k c)).trace ++
          [.barValue k, .barDetail k a.retries, .setTimeout a.interval, .httpGet a.url] := by
      rw [run_append, hs]
      simp [onResponse, hc, step, onError, attempt, e1, hk]
    refine ⟨h3, ?_, ?_⟩
    · rw [h3, gets_append, hg]
      simp [gets]
    · rw [h3, waits_append, hw]
      simp [waits]
      omega

/-- C3 amended, at `retries = 5`, `k = 2`, status 503. -/
theorem checkService_unexpected_status_witness :
    (run { url := "http://localhost:7860/", retries := 5, interval := 100 }
      (respondsAt 2 503)).promise = .rejected (.statusCode 503) ∧
    gets (run { url := "http://localhost:7860/", retries := 5, interval := 100 }
      (respondsAt 2 503)).trace = 2 ∧
    gets (run { url := "http://localhost:7860/", retries := 5, interval := 100 }
      (respondsAt 2 503 ++ [.requestError, .timerFired])).trace = 2 + 1 :=
  have h := checkService_unexpected_status
    { url := "http://localhost:7860/", retries := 5, interval := 100 } 2 503
    (by decide) (by decide) (by decide)
  ⟨h.1, h.2.2.2.1, (h.2.2.2.2.2.2.2.2 (by decide)).2.1⟩

/-- C6: with `retries = n ≥ 1` and `1 ≤ k ≤ n`, when the first `k - 1` requests
end in a request error and the `k`-th receives status 200, the progress reports
are exactly attempt(1,n), ..., attempt(k-1,n), completed(), in this order; the
operations on the bar are the `value` and `detail` assignments of these
attempts followed by `setCompleted()`, and nothing else. When the bar then
emits 'completed', its handler closes the bar and reports nothing more. -/
theorem checkService_progress_events (a : CheckArgs) (k : Nat)
    (h1 : 1 ≤ k) (h2 : k ≤ a.retries) :
    progressEvents (run a (respondsAt k 200)).trace =
      (List.range (k - 1)).map (fun i => .attempt (i + 1) a.retries) ++ [.completed] ∧
    barOps (run a (respondsAt k 200)).trace =
      (List.range (k - 1)).flatMap
        (fun i => [.barValue (i + 1), .barDetail (i + 1) a.retries]) ++ [.barSetCompleted] ∧
    progressEvents (run a (respondsAt k 200 ++ [.barCompleted])).trace =
      (List.range (k - 1)).map (fun i => .attempt (i + 1) a.retries) ++ [.completed] ∧
    barOps (run a (respondsAt k 200 ++ [.barCompleted])).trace =
      (List.range (k - 1)).flatMap
        (fun i => [.barValue (i + 1), .barDetail (i + 1) a.retries]) ++
        [.barSetCompleted, .barClose] := by
  have hs := run_respondsAt a k 200 h1 h2
  refine ⟨?_, ?_, ?_, ?_⟩
  · rw [hs]
    simp [onResponse, progressEvents, progressEvents_append, progressEvents_failedTrace]
  · rw [hs]
    simp [onResponse, barOps, barOps_append, barOps_failedTrace]
  · rw [run_append, hs]
    simp [onResponse, step, onCompleted, progressEvents, progressEvents_append,
      progressEvents_failedTrace]
  · rw [run_append, hs]
    simp [onResponse, step, onCompleted, barOps, barOps_append, barOps_failedTrace]

/-- C6 at `retries = 3`, `k = 3`: attempt(1,3), attempt(2,3), completed(). -/
theorem checkService_progress_events_witness :
    progressEvents (run { url := "http://localhost:7860/", retries := 3, interval := 100 }
      (respondsAt 3 200)).trace = [.attempt 1 3, .attempt 2 3, .completed] :=
  (checkService_progress_events
    { url := "http://localhost:7860/", retries := 3, interval := 100 } 3
    (by decide) (by decide)).1

/-! ## Bounds on the polling loop -/

lemma reject_ne_pending (r : Rejection) (p : PromiseState) : p.reject r ≠ .pending := by
  cases p <;> simp [PromiseState.reject]

lemma resolve_ne_pending (p : PromiseState) : p.resolve ≠ .pending := by
  cases p <;> simp [PromiseState.resolve]

lemma reachable_checkService (a : CheckArgs) (h : 1 ≤ a.retries) :
    Reachable a (checkService a) := by
  refine ⟨?_, ?_, ?_, ?_, ?_, ?_, ?_, ?_, ?_⟩ <;>
    simp [checkService, attempt, gets, waits, totalWait, CheckState.quiescent]
  omega

/-- The 'error' handler, run for the one request that could still emit
'error', keeps the bounds. -/
lemma reachable_onError (a : CheckArgs) (s : CheckState)
    (hlt : s.progress < a.retries)
    (hw : waits s.trace = min s.progress (a.retries - 1))
    (hg : gets s.trace = waits s.trace + 1)
    (h1 : s.awaiting = 0) (h2 : s.responded = 0) (h3 : s.timers = 0)
    (htw : totalWait s.trace = waits s.trace * a.interval)
    (hv : ∀ v, Effect.barValue v ∈ s.trace → v ≤ a.retries)
    (hd : ∀ p r, Effect.barDetail p r ∈ s.trace → p ≤ a.retries) :
    Reachable a (onError a s) := by
  by_cases hn : s.progress + 1 < a.retries
  · refine ⟨?_, ?_, ?_, ?_, ?_, ?_, ?_, ?_, ?_⟩ <;>
      simp [onError, hn, h1, h2, h3, gets_append, waits_append, totalWait_append,
        gets, waits, totalWait, CheckState.quiescent]
    · omega
    · omega
    · omega
    · rw [htw, Nat.succ_mul]
    · intro v hv1
      rcases hv1 with hv1 | hv1
      · exact hv v hv1
      · omega
    · intro p r hd1
      rcases hd1 with hd1 | hd1
      · exact hd p r hd1
      · omega
  · refine ⟨?_, ?_, ?_, ?_, ?_, ?_, ?_, ?_, ?_⟩ <;>
      simp [onError, hn, h1, h2, h3, gets_append, waits_append, totalWait_append,
        gets, waits, totalWait, CheckState.quiescent, reject_ne_pending]
    · omega
    · omega
    · omega
    · exact htw
    · intro v hv1
      rcases hv1 with hv1 | hv1
      · exact hv v hv1
      · omega
    · intro p r hd1
      rcases hd1 with hd1 | hd1
      · exact hd p r hd1
      · omega

lemma reachable_step (a : CheckArgs) (s : CheckState) (e : Event) (h : Reachable a s) :
    Reachable a (step a s e) := by
  obtain ⟨hp, hw, hg, hk, hf, htw, hv, hd, hq⟩ := h
  cases e with
  | response c =>
      by_cases hi : 0 < s.awaiting
      · have hlt := hf (by omega)
        by_cases hc : c = 200
        · refine ⟨?_, ?_, ?_, ?_, ?_, ?_, ?_, ?_, ?_⟩ <;>
            simp [step, onResponse, hi, hc, gets_append, waits_append, totalWait_append,
              gets, waits, totalWait, CheckState.quiescent, resolve_ne_pending] <;>
            first | assumption | omega
        · refine ⟨?_, ?_, ?_, ?_, ?_, ?_, ?_, ?_, ?_⟩ <;>
            simp [step, onResponse, hi, hc, CheckState.quiescent, reject_ne_pending] <;>
            first | assumption | omega
      · simp only [step, hi, if_false]
        exact ⟨hp, hw, hg, hk, hf, htw, hv, hd, hq⟩
  | requestError =>
      by_cases hi : 0 < s.awaiting
      · have hlt := hf (by omega)
        simp only [step, hi, if_true]
        exact reachable_onError a _ hlt hw (by simp only; omega) (by simp only; omega)
          (by simp only; omega) (by simp only; omega) htw hv hd
      · by_cases hr : 0 < s.responded
        · have hlt := hf (by omega)
          simp only [step, hi, hr, if_true, if_false]
          exact reachable_onError a _ hlt hw (by simp only; omega) (by simp only; omega)
            (by simp only; omega) (by simp only; omega) htw hv hd
        · simp only [step, hi, hr, if_false]
          exact ⟨hp, hw, hg, hk, hf, htw, hv, hd, hq⟩
  | timerFired =>
      by_cases hi : 0 < s.timers
      · have hlt := hf (by omega)
        refine ⟨?_, ?_, ?_, ?_, ?_, ?_, ?_, ?_, ?_⟩ <;>
          simp [step, attempt, hi, gets_append, waits_append, totalWait_append,
            gets, waits, totalWait, CheckState.quiescent] <;>
          first | assumption | omega
      · simp only [step, hi, if_false]
        exact ⟨hp, hw, hg, hk, hf, htw, hv, hd, hq⟩
  | barCompleted =>
      refine ⟨?_, ?_, ?_, ?_, ?_, ?_, ?_, ?_, ?_⟩ <;>
        simp [step, onCompleted, gets_append, waits_append, totalWait_append,
          gets, waits, totalWait, CheckState.quiescent] <;>
        first
          | assumption
          | omega
          | simpa [CheckState.quiescent] using hq
  | barAborted =>
      refine ⟨?_, ?_, ?_, ?_, ?_, ?_, ?_, ?_, ?_⟩ <;>
        simp [step, onAborted, gets_append, waits_append, totalWait_append,
          gets, waits, totalWait, CheckState.quiescent, reject_ne_pending] <;>
        first | assumption | omega

lemma reachable_run (a : CheckArgs) (h : 1 ≤ a.retries) (evs : List Event) :
    Reachable a (run a evs) := by
  induction evs using List.reverseRecOn with
  | nil => exact reachable_checkService a h
  | append_singleton es e ih =>
      rw [run_append]
      exact reachable_step a _ e ih

lemma drive_terminates (a : CheckArgs) (outcomes : Nat → ProbeOutcome) (fuel : Nat) :
    ∀ s : CheckState, Reachable a s → budget a s ≤ fuel →
      (drive a outcomes fuel s).quiescent = true ∧ Reachable a (drive a outcomes fuel s) := by
  induction fuel with
  | zero =>
      intro s hr hb
      by_cases hi : 0 < s.awaiting
      · exfalso
        have := hr.2.2.2.2.1 (by omega)
        rw [budget, if_pos hi] at hb
        omega
      · by_cases hti : 0 < s.timers
        · exfalso
          have := hr.2.2.2.2.1 (by omega)
          rw [budget, if_neg hi, if_pos hti] at hb
          omega
        · refine ⟨?_, hr⟩
          have h1 : s.awaiting = 0 := by omega
          have h2 : s.timers = 0 := by omega
          simp [drive, CheckState.quiescent, h1, h2]
  | succ fuel ih =>
      intro s hr hb
      have hk := hr.2.2.2.1
      by_cases hi : 0 < s.awaiting
      · have hlt := hr.2.2.2.2.1 (by omega)
        have hr1 := reachable_step a s (outcomes (gets s.trace - 1)).toEvent hr
        have ht0 : s.timers = 0 := by omega
        have ha1 : s.awaiting - 1 = 0 := by omega
        simp only [drive, hi, if_true]
        apply ih _ hr1
        rw [budget, if_pos hi] at hb
        cases outcomes (gets s.trace - 1) with
        | error =>
            by_cases hn : s.progress + 1 < a.retries
            · simp [ProbeOutcome.toEvent, step, onError, hi, hn, budget, ha1, ht0]
              omega
            · simp [ProbeOutcome.toEvent, step, onError, hi, hn, budget, ha1, ht0]
        | status c =>
            by_cases hc : c = 200
            · simp [ProbeOutcome.toEvent, step, onResponse, hi, hc, budget, ha1, ht0]
            · simp [ProbeOutcome.toEvent, step, onResponse, hi, hc, budget, ha1, ht0]
      · by_cases hti : 0 < s.timers
        · have hlt := hr.2.2.2.2.1 (by omega)
          have hr1 := reachable_step a s .timerFired hr
          simp only [drive, hi, hti, if_true, if_false]
          apply ih _ hr1
          rw [budget, if_neg hi, if_pos hti] at hb
          simp [step, attempt, hti, budget]
          omega
        · simp only [drive, hi, hti, if_false]
          have h1 : s.awaiting = 0 := by omega
          have h2 : s.timers = 0 := by omega
          exact ⟨by simp [CheckState.quiescent, h1, h2], hr⟩

lemma reachable_bounds (a : CheckArgs) (s : CheckState) (h : 1 ≤ a.retries)
    (hr : Reachable a s) :
    gets s.trace ≤ a.retries ∧ waits s.trace ≤ a.retries - 1 ∧
      totalWait s.trace ≤ a.retries * a.interval ∧ s.progress ≤ a.retries := by
  obtain ⟨hp, hw, hg, -, -, htw, -⟩ := hr
  have h1 : waits s.trace ≤ a.retries - 1 := by omega
  have h2 : gets s.trace ≤ a.retries := by omega
  refine ⟨h2, h1, ?_, hp⟩
  rw [htw]
  exact Nat.mul_le_mul_right _ (by omega)

/-- C9: with `retries = n ≥ 1` and `interval = t`, whatever events the
environment delivers and in whatever order (request errors, responses with 200
or any other status, timer expiries, bar events), the call issues at most `n`
requests and sets at most `n - 1` timers, the delays it has scheduled sum to at
most `n * t`, and the counter `progress`, as well as every value reported to
the progress bar, is at most `n`. Against any infinite sequence of probe
outcomes the loop stops: after at most `2 * n - 1` deliveries it waits for
nothing and its promise is settled. -/
theorem checkService_terminates (a : CheckArgs) (h : 1 ≤ a.retries) :
    (∀ evs : List Event,
      gets (run a evs).trace ≤ a.retries ∧
      waits (run a evs).trace ≤ a.retries - 1 ∧
      totalWait (run a evs).trace ≤ a.retries * a.interval ∧
      (run a evs).progress ≤ a.retries ∧
      (∀ v, Effect.barValue v ∈ (run a evs).trace → v ≤ a.retries) ∧
      (∀ p r, Effect.barDetail p r ∈ (run a evs).trace → p ≤ a.retries)) ∧
    (∀ outcomes : Nat → ProbeOutcome,
      (drive a outcomes (2 * a.retries - 1) (checkService a)).quiescent = true ∧
      (drive a outcomes (2 * a.retries - 1) (checkService a)).promise ≠ .pending ∧
      gets (drive a outcomes (2 * a.retries - 1) (checkService a)).trace ≤ a.retries ∧
      waits (drive a outcomes (2 * a.retries - 1) (checkService a)).trace ≤ a.retries - 1 ∧
      totalWait (drive a outcomes (2 * a.retries - 1) (checkService a)).trace
        ≤ a.retries * a.interval ∧
      (drive a outcomes (2 * a.retries - 1) (checkService a)).progress ≤ a.retries) := by
  constructor
  · intro evs
    have hr := reachable_run a h evs
    obtain ⟨b1, b2, b3, b4⟩ := reachable_bounds a _ h hr
    exact ⟨b1, b2, b3, b4, hr.2.2.2.2.2.2.1, hr.2.2.2.2.2.2.2.1⟩
  · intro outcomes
    have hb : budget a (checkService a) ≤ 2 * a.retries - 1 := by
      simp [budget, checkService, attempt]
    obtain ⟨hq, hr⟩ := drive_terminates a outcomes _ _ (reachable_checkService a h) hb
    obtain ⟨b1, b2, b3, b4⟩ := reachable_bounds a _ h hr
    exact ⟨hq, hr.2.2.2.2.2.2.2.2 hq, b1, b2, b3, b4⟩

/-- C9 at `retries = 2`, `interval = 100`, for an endpoint that never
responds. -/
theorem checkService_terminates_witness :
    (drive { url := "http://localhost:7860/", retries := 2, interval := 100 }
      (fun _ => .error) (2 * 2 - 1)
      (checkService { url := "http://localhost:7860/", retries := 2, interval := 100 })).quiescent
      = true ∧
    gets (run { url := "http://localhost:7860/", retries := 2, interval := 100 }
      [.requestError, .timerFired, .requestError, .timerFired, .requestError]).trace ≤ 2 :=
  have h := checkService_terminates
    { url := "http://localhost:7860/", retries := 2, interval := 100 } (by decide)
  ⟨(h.2 (fun _ => .error)).1, (h.1 _).1⟩

/-! ## Cancellation -/

/-- C4, as stated, fails for `retries = 3`, `i = 1`: after the abort during the
first wait the promise is rejected with the cancelled-by-user error, yet the
timer set before the abort still expires and issues the second request, and the
error of that request still updates the progress bar. -/
theorem abort_during_wait_counterexample :
    (run { url := "http://localhost:7860/", retries := 3, interval := 100 }
      (abortedDuringWait 1)).promise = .rejected .abortedByUser ∧
    gets (run { url := "http://localhost:7860/", retries := 3, interval := 100 }
      (abortedDuringWait 1)).trace = 1 ∧
    gets (run { url := "http://localhost:7860/", retries := 3, interval := 100 }
      (abortedDuringWait 1 ++ [.timerFired])).trace = 2 ∧
    (run { url := "http://localhost:7860/", retries := 3, interval := 100 }
      (abortedDuringWait 1 ++ [.timerFired, .requestError])).trace =
      (run { url := "http://localhost:7860/", retries := 3, interval := 100 }
        (abortedDuringWait 1)).trace ++
        [.httpGet "http://localhost:7860/", .barValue 2, .barDetail 2 3, .setTimeout 100] ∧
    ¬ (∀ more : List Event,
        gets (run { url := "http://localhost:7860/", retries := 3, interval := 100 }
          (abortedDuringWait 1 ++ more)).trace =
        gets (run { url := "http://localhost:7860/", retries := 3, interval := 100 }
          (abortedDuringWait 1)).trace) := by
  refine ⟨by decide, by decide, by decide, by decide, ?_⟩
  intro h
  exact absurd (h [.timerFired]) (by decide)

/-- C4, amended: with `1 ≤ i < retries`, when the progress bar emits 'aborted'
during the wait between attempt `i` and attempt `i + 1`, the promise is
rejected with the cancelled-by-user error and keeps this outcome whatever
happens afterwards; `i` requests have been issued at that point, the timer of
the wait stays pending, and its expiry issues attempt `i + 1`. When that
request ends in a request error, its handler still runs: it reports attempt
`i + 1` to the progress bar, and sets the next timer if `i + 1 < retries` or
closes the bar otherwise. -/
theorem abort_during_wait (a : CheckArgs) (i : Nat) (h1 : 1 ≤ i) (h2 : i < a.retries) :
    (run a (abortedDuringWait i)).promise = .rejected .abortedByUser ∧
    Rejection.abortedByUser.message = "Progress bar aborted by user" ∧
    gets (run a (abortedDuringWait i)).trace = i ∧
    (run a (abortedDuringWait i)).timers = 1 ∧
    (∀ more : List Event,
      (run a (abortedDuringWait i ++ more)).promise = .rejected .abortedByUser) ∧
    (run a (abortedDuringWait i ++ [.timerFired])).trace =
      (run a (abortedDuringWait i)).trace ++ [.httpGet a.url] ∧
    gets (run a (abortedDuringWait i ++ [.timerFired])).trace = i + 1 ∧
    (run a (abortedDuringWait i ++ [.timerFired])).awaiting = 1 ∧
    (run a (abortedDuringWait i ++ [.timerFired, .requestError])).trace =
      (run a (abortedDuringWait i)).trace ++
        [.httpGet a.url, .barValue (i + 1), .barDetail (i + 1) a.retries] ++
        (if i + 1 < a.retries then [.setTimeout a.interval] else [.barClose]) ∧
    progressEvents (run a (abortedDuringWait i ++ [.timerFired, .requestError])).trace =
      progressEvents (run a (abortedDuringWait i)).trace ++ [.attempt (i + 1) a.retries] := by
  have hj : i - 1 < a.retries := by omega
  have e1 : i - 1 + 1 = i := by omega
  have hs : run a (abortedDuringWait i) =
      { progress := i, promise := .rejected .abortedByUser, awaiting := 0, responded := 0,
        timers := 1,
        trace := .newProgressBar a.retries :: failedTrace a (i - 1) ++
          [.httpGet a.url, .barValue i, .barDetail i a.retries, .setTimeout a.interval,
           .consoleLog "Progress bar aborted", .barClose] } := by
    rw [abortedDuringWait, run_append, run_failedRounds a _ hj]
    simp [step, onError, onAborted, e1, h2, PromiseState.reject]
  have hg : gets (run a (abortedDuringWait i)).trace = i := by
    rw [hs]
    simp [gets, gets_append, gets_failedTrace]
    omega
  have ht : (run a (abortedDuringWait i ++ [.timerFired])).trace =
      (run a (abortedDuringWait i)).trace ++ [.httpGet a.url] := by
    rw [run_append, hs]
    simp [step, attempt]
  have he : (run a (abortedDuringWait i ++ [.timerFired, .requestError])).trace =
      (run a (abortedDuringWait i)).trace ++
        [.httpGet a.url, .barValue (i + 1), .barDetail (i + 1) a.retries] ++
        (if i + 1 < a.retries then [.setTimeout a.interval] else [.barClose]) := by
    rw [run_append, hs]
    by_cases hn : i + 1 < a.retries <;> simp [step, attempt, onError, hn]
  refine ⟨by rw [hs], rfl, hg, by rw [hs], ?_, ht, ?_, ?_, he, ?_⟩
  · intro more
    have p := foldl_promise_of_settled a more (run a (abortedDuringWait i)) (by rw [hs]; simp)
    rw [run_append, p, hs]
  · rw [ht, gets_append, hg]
    simp [gets]
  · rw [run_append, hs]
    simp [step, attempt]
  · rw [he]
    by_cases hn : i + 1 < a.retries <;>
      simp [hn, progressEvents_append, progressEvents]

/-- C4 amended, at `retries = 3`, `i = 2`. -/
theorem abort_during_wait_witness :
    (run { url := "http://localhost:7860/", retries := 3, interval := 100 }
      (abortedDuringWait 2)).promise = .rejected .abortedByUser ∧
    gets (run { url := "http://localhost:7860/", retries := 3, interval := 100 }
      (abortedDuringWait 2 ++ [.timerFired])).trace = 2 + 1 ∧
    progressEvents (run { url := "http://localhost:7860/", retries := 3, interval := 100 }
      (abortedDuringWait 2 ++ [.timerFired, .requestError])).trace =
      progressEvents (run { url := "http://localhost:7860/", retries := 3, interval := 100 }
        (abortedDuringWait 2)).trace ++ [.attempt (2 + 1) 3] :=
  have h := abort_during_wait
    { url := "http://localhost:7860/", retries := 3, interval := 100 } 2 (by decide) (by decide)
  ⟨h.1, h.2.2.2.2.2.2.1, h.2.2.2.2.2.2.2.2.2⟩

/-! ## Configuration readers -/

lemma dialog_unbound : "dialog" ∉ moduleBindings := by decide

lemma configCatch_eq (e : JsError) :
    configCatch e =
      { effects := [.consoleError ("Failed to load config: " ++ e.message)],
        result := .error ⟨"ReferenceError", "dialog is not defined"⟩ } := by
  unfold configCatch
  rw [if_neg dialog_unbound]

lemma getPortFromConfig_ok (file : ConfigFile) (v : JsValue)
    (h : (getPortFromConfig file).result = .ok v) :
    tryGetPort file = .ok v ∧ getPortFromConfig file = { effects := [], result := .ok v } := by
  unfold getPortFromConfig at h ⊢
  cases ht : tryGetPort file with
  | ok w =>
      rw [ht] at h
      simp only [Except.ok.injEq] at h
      simp [h]
  | error e =>
      rw [ht] at h
      simp [configCatch_eq] at h

lemma getpdf2zhpathFromConfig_ok (file : ConfigFile) (v : JsValue)
    (h : (getpdf2zhpathFromConfig file).result = .ok v) :
    tryGetpdf2zhpath file = .ok v ∧
      getpdf2zhpathFromConfig file = { effects := [], result := .ok v } := by
  unfold getpdf2zhpathFromConfig at h ⊢
  cases ht : tryGetpdf2zhpath file with
  | ok w =>
      rw [ht] at h
      simp only [Except.ok.injEq] at h
      simp [h]
  | error e =>
      rw [ht] at h
      simp [configCatch_eq] at h

/-- C10: on every parsed record, `getPortFromConfig` returns a value exactly
when the record has a field `gradio_port` whose value is truthy, and it then
returns that value as it is, with no check of type or range: the number 70000,
the number 7860.5 and a non-empty string are returned as the port. In every
other case it takes the path of the missing field: the port 0 is reported as a
missing `gradio_port`. `getpdf2zhpathFromConfig` does the same for
`pdf2zh_path`. -/
theorem config_readers_truthiness (fields : List (String × JsValue)) :
    (∀ v, (getPortFromConfig (.parsed (.object fields))).result = .ok v ↔
      (lookupField fields "gradio_port" = some v ∧ v.truthy = true)) ∧
    ((¬ ∃ v, lookupField fields "gradio_port" = some v ∧ v.truthy = true) →
      getPortFromConfig (.parsed (.object fields)) =
        { effects := [.consoleError "Failed to load config: 配置文件中缺少 \"gradio_port\" 配置项"],
          result := .error ⟨"ReferenceError", "dialog is not defined"⟩ }) ∧
    (∀ v, (getpdf2zhpathFromConfig (.parsed (.object fields))).result = .ok v ↔
      (lookupField fields "pdf2zh_path" = some v ∧ v.truthy = true)) ∧
    ((¬ ∃ v, lookupField fields "pdf2zh_path" = some v ∧ v.truthy = true) →
      getpdf2zhpathFromConfig (.parsed (.object fields)) =
        { effects := [.consoleError "Failed to load config: 配置文件中缺少 \"pdf2zh_path\" 配置项"],
          result := .error ⟨"ReferenceError", "dialog is not defined"⟩ }) ∧
    (getPortFromConfig (.parsed (.object [("gradio_port", .number (.finite 70000))]))).result
      = .ok (.number (.finite 70000)) ∧
    (getPortFromConfig (.parsed (.object [("gradio_port", .number (.finite (15721 / 2)))]))).result
      = .ok (.number (.finite (15721 / 2))) ∧
    (getPortFromConfig (.parsed (.object [("gradio_port", .string "not a port")]))).result
      = .ok (.string "not a port") ∧
    getPortFromConfig (.parsed (.object [("gradio_port", .number (.finite 0))])) =
      { effects := [.consoleError "Failed to load config: 配置文件中缺少 \"gradio_port\" 配置项"],
        result := .error ⟨"ReferenceError", "dialog is not defined"⟩ } := by
  refine ⟨?_, ?_, ?_, ?_, ?_, ?_, ?_, ?_⟩
  · intro v
    constructor
    · intro h
      have ht := (getPortFromConfig_ok _ v h).1
      simp only [tryGetPort, getProp] at ht
      cases hl : lookupField fields "gradio_port" with
      | none => rw [hl] at ht; simp at ht
      | some w =>
          rw [hl] at ht
          by_cases hw : w.truthy = true
          · simp only [hw, if_true, Except.ok.injEq] at ht
            subst ht
            exact ⟨rfl, hw⟩
          · simp [hw] at ht
    · rintro ⟨hl, hv⟩
      simp [getPortFromConfig, tryGetPort, getProp, hl, hv]
  · intro h
    cases hl : lookupField fields "gradio_port" with
    | none => simp [getPortFromConfig, tryGetPort, getProp, hl, configCatch_eq]
    | some w =>
        have hw : ¬ w.truthy = true := fun hw => h ⟨w, hl, hw⟩
        simp [getPortFromConfig, tryGetPort, getProp, hl, hw, configCatch_eq]
  · intro v
    constructor
    · intro h
      have ht := (getpdf2zhpathFromConfig_ok _ v h).1
      simp only [tryGetpdf2zhpath, getProp] at ht
      cases hl : lookupField fields "pdf2zh_path" with
      | none => rw [hl] at ht; simp at ht
      | some w =>
          rw [hl] at ht
          by_cases hw : w.truthy = true
          · simp only [hw, if_true, Except.ok.injEq] at ht
            subst ht
            exact ⟨rfl, hw⟩
          · simp [hw] at ht
    · rintro ⟨hl, hv⟩
      simp [getpdf2zhpathFromConfig, tryGetpdf2zhpath, getProp, hl, hv]
  · intro h
    cases hl : lookupField fields "pdf2zh_path" with
    | none => simp [getpdf2zhpathFromConfig, tryGetpdf2zhpath, getProp, hl, configCatch_eq]
    | some w =>
        have hw : ¬ w.truthy = true := fun hw => h ⟨w, hl, hw⟩
        simp [getpdf2zhpathFromConfig, tryGetpdf2zhpath, getProp, hl, hw, configCatch_eq]
  · simp [getPortFromConfig, tryGetPort, getProp, lookupField, JsValue.truthy]
  · simp [getPortFromConfig, tryGetPort, getProp, lookupField, JsValue.truthy]
  · simp [getPortFromConfig, tryGetPort, getProp, lookupField, JsValue.truthy]
  · simp [getPortFromConfig, tryGetPort, getProp, lookupField, JsValue.truthy, configCatch_eq]

/-! ## Module top level -/

lemma execs_append (xs ys : List Effect) : execs (xs ++ ys) = execs xs + execs ys := by
  induction xs with
  | nil => simp [execs]
  | cons e es ih => cases e <;> simp [execs, ih]; omega

/-- A run whose module evaluation throws performs the effects of that
evaluation and no other. -/
lemma appRun_of_error (host : Host) (read1 read2 : ConfigFile) (evs : List Event)
    (e : JsError) (h : (mainModule host read1 read2).result = .error e) :
    (appRun host read1 read2 evs).aborted = some e ∧
      (appRun host read1 read2 evs).allEffects = (mainModule host read1 read2).effects := by
  simp [appRun, h, AppRun.allEffects, AppRun.checkEffects]

lemma mainModule_missing_port (host : Host) (fields : List (String × JsValue))
    (read2 : ConfigFile) (h : lookupField fields "gradio_port" = none) :
    mainModule host (.parsed (.object fields)) read2 =
      { effects := [.consoleError "Failed to load config: 配置文件中缺少 \"gradio_port\" 配置项"],
        result := .error ⟨"ReferenceError", "dialog is not defined"⟩ } := by
  simp [mainModule, getPortFromConfig, tryGetPort, getProp, h, configCatch_eq]

/-- C7: on the record that holds `pdf2zh_path` only, and so lacks
`gradio_port`, the reader throws the error that names the field and logs it,
and its `catch` block then evaluates `dialog`, which `main.js` does not
declare: the reader ends in a ReferenceError that names no field, no error box
is shown and `app.quit()` is not called. The evaluation of the module stops at
line 115, so the log is the only effect of the run and `exec` is not called. -/
theorem missing_port_ends_in_reference_error (host : Host) (evs : List Event) :
    getPortFromConfig (.parsed (.object [("pdf2zh_path", .string "pdf2zh")])) =
      { effects := [.consoleError "Failed to load config: 配置文件中缺少 \"gradio_port\" 配置项"],
        result := .error ⟨"ReferenceError", "dialog is not defined"⟩ } ∧
    (appRun host (.parsed (.object [("pdf2zh_path", .string "pdf2zh")]))
      (.parsed (.object [("pdf2zh_path", .string "pdf2zh")])) evs).aborted
      = some ⟨"ReferenceError", "dialog is not defined"⟩ ∧
    (appRun host (.parsed (.object [("pdf2zh_path", .string "pdf2zh")]))
      (.parsed (.object [("pdf2zh_path", .string "pdf2zh")])) evs).allEffects
      = [.consoleError "Failed to load config: 配置文件中缺少 \"gradio_port\" 配置项"] ∧
    Effect.appQuit ∉ (appRun host (.parsed (.object [("pdf2zh_path", .string "pdf2zh")]))
      (.parsed (.object [("pdf2zh_path", .string "pdf2zh")])) evs).allEffects ∧
    (∀ title content, Effect.showErrorBox title content ∉
      (appRun host (.parsed (.object [("pdf2zh_path", .string "pdf2zh")]))
        (.parsed (.object [("pdf2zh_path", .string "pdf2zh")])) evs).allEffects) ∧
    execs (appRun host (.parsed (.object [("pdf2zh_path", .string "pdf2zh")]))
      (.parsed (.object [("pdf2zh_path", .string "pdf2zh")])) evs).allEffects = 0 := by
  have hl : lookupField [("pdf2zh_path", JsValue.string "pdf2zh")] "gradio_port" = none := rfl
  have hm := mainModule_missing_port host [("pdf2zh_path", .string "pdf2zh")]
    (.parsed (.object [("pdf2zh_path", .string "pdf2zh")])) hl
  have hres : (mainModule host (.parsed (.object [("pdf2zh_path", .string "pdf2zh")]))
      (.parsed (.object [("pdf2zh_path", .string "pdf2zh")]))).result =
      .error ⟨"ReferenceError", "dialog is not defined"⟩ := by rw [hm]
  obtain ⟨ha, he⟩ := appRun_of_error host _ _ evs _ hres
  rw [hm] at he
  refine ⟨?_, ha, he, ?_, ?_, ?_⟩
  · simp [getPortFromConfig, tryGetPort, getProp, hl, configCatch_eq]
  · rw [he]; simp
  · intro title content
    rw [he]; simp
  · rw [he]; simp [execs]

lemma httpGet_step (a : CheckArgs) (s : CheckState) (e : Event)
    (h : ∀ u, Effect.httpGet u ∈ s.trace → u = a.url) :
    ∀ u, Effect.httpGet u ∈ (step a s e).trace → u = a.url := by
  intro u
  cases e <;>
    simp only [step, onResponse, onError, onCompleted, onAborted, attempt] <;>
    (try split_ifs) <;>
    (try simp only [List.mem_append, List.mem_cons, List.mem_singleton, List.not_mem_nil,
      Effect.httpGet.injEq, reduceCtorEq, or_false, false_or]) <;>
    first
      | exact h u
      | (intro hu
         rcases hu with hu | hu
         · exact h u hu
         · exact hu)

/-- Every request of a `checkService` call goes to the url it was given. -/
lemma httpGet_url (a : CheckArgs) (evs : List Event) :
    ∀ u, Effect.httpGet u ∈ (run a evs).trace → u = a.url := by
  induction evs using List.reverseRecOn with
  | nil => intro u hu; simpa [run, checkService, attempt] using hu
  | append_singleton es e ih =>
      rw [run_append]
      simp only [List.foldl_cons, List.foldl_nil]
      exact httpGet_step a _ e ih

lemma gets_step_le (a : CheckArgs) (s : CheckState) (e : Event) :
    gets s.trace ≤ gets (step a s e).trace := by
  cases e <;>
    simp only [step, onResponse, onError, onCompleted, onAborted, attempt] <;>
    (try split_ifs) <;>
    simp [gets_append, gets]

/-- The first request is issued by the call itself. -/
lemma one_le_gets (a : CheckArgs) (evs : List Event) : 1 ≤ gets (run a evs).trace := by
  induction evs using List.reverseRecOn with
  | nil => simp [run, checkService, attempt, gets]
  | append_singleton es e ih =>
      rw [run_append]
      simp only [List.foldl_cons, List.foldl_nil]
      exact le_trans ih (gets_step_le a _ e)

/-- A port whose conversion to a string throws ends the evaluation of the
module at line 117: nothing is launched and nothing is polled. -/
lemma appRun_of_unrenderable_port (host : Host) (read1 read2 : ConfigFile)
    (p e : JsValue) (err : JsError) (evs : List Event)
    (hp : (getPortFromConfig read1).result = .ok p)
    (he : (getpdf2zhpathFromConfig read2).result = .ok e)
    (hps : p.toStr host = .error err) :
    (appRun host read1 read2 evs).aborted = some err ∧
      (appRun host read1 read2 evs).allEffects = [] := by
  have h1 := (getPortFromConfig_ok read1 p hp).2
  have h2 := (getpdf2zhpathFromConfig_ok read2 e he).2
  simp [appRun, mainModule, h1, h2, hps, AppRun.allEffects, AppRun.checkEffects]

/-- A path whose conversion to a string throws ends the `app.whenReady`
callback at line 155, before `exec` and `checkService` are called. -/
lemma appRun_of_unrenderable_path (host : Host) (read1 read2 : ConfigFile)
    (p e : JsValue) (port : String) (err : JsError) (evs : List Event)
    (hp : (getPortFromConfig read1).result = .ok p)
    (he : (getpdf2zhpathFromConfig read2).result = .ok e)
    (hps : p.toStr host = .ok port) (hes : e.toStr host = .error err) :
    (appRun host read1 read2 evs).readyError = some err ∧
      (appRun host read1 read2 evs).allEffects = [] := by
  have h1 := (getPortFromConfig_ok read1 p hp).2
  have h2 := (getpdf2zhpathFromConfig_ok read2 e he).2
  simp [appRun, mainModule, execCommand, h1, h2, hps, hes, AppRun.allEffects,
    AppRun.checkEffects]

/-- C8: whenever the two readers return a port `p` and a path `e` that the
template literals render as `port` and `path`, the one command passed to
`exec` is `path` followed by ` -i --electron --serverport=` and `port`, the
readiness poll is `checkService` on `http://localhost:port/` with the default
retries and interval, every request of the poll goes to that url and the poll
issues one, and when the poll is fulfilled its handler creates the window and
loads the same url: the process and the poll get the same rendering of the
same `p`. A path that is a string is rendered as it is. -/
theorem launch_and_poll_same_port (host : Host) (read1 read2 : ConfigFile)
    (p e : JsValue) (port path : String) (evs : List Event)
    (hp : (getPortFromConfig read1).result = .ok p)
    (he : (getpdf2zhpathFromConfig read2).result = .ok e)
    (hps : p.toStr host = .ok port) (hes : e.toStr host = .ok path) :
    (appRun host read1 read2 evs).aborted = none ∧
    (appRun host read1 read2 evs).readyError = none ∧
    (appRun host read1 read2 evs).readyEffects =
      [.exec (path ++ " -i --electron --serverport=" ++ port)] ∧
    (appRun host read1 read2 evs).poll =
      some (run { url := "http://localhost:" ++ port ++ "/", retries := 100,
                  interval := 1000 } evs) ∧
    (∀ u, Effect.httpGet u ∈ (appRun host read1 read2 evs).checkEffects →
      u = "http://localhost:" ++ port ++ "/") ∧
    1 ≤ gets (appRun host read1 read2 evs).checkEffects ∧
    ((run { url := "http://localhost:" ++ port ++ "/", retries := 100,
            interval := 1000 } evs).promise = .fulfilled →
      (appRun host read1 read2 evs).settledEffects =
        [.consoleLog "Service is ready.", .setApplicationMenuNull,
         .loadURL ("http://localhost:" ++ port ++ "/")]) ∧
    (appRun host read1 read2 (respondsAt 1 200)).settledEffects =
      [.consoleLog "Service is ready.", .setApplicationMenuNull,
       .loadURL ("http://localhost:" ++ port ++ "/")] ∧
    (∀ s : String, (JsValue.string s).toStr host = .ok s) := by
  have h1 := (getPortFromConfig_ok read1 p hp).2
  have h2 := (getpdf2zhpathFromConfig_ok read2 e he).2
  have hm : mainModule host read1 read2 =
      { effects := [], result := .ok
          { port := p, pdf2zh_path := e,
            targetURL := "http://localhost:" ++ port ++ "/" } } := by
    simp [mainModule, h1, h2, hps]
  have hx : execCommand host
      { port := p, pdf2zh_path := e, targetURL := "http://localhost:" ++ port ++ "/" } =
      .ok (path ++ " -i --electron --serverport=" ++ port) := by
    simp [execCommand, hps, hes]
  have hrun : ∀ es : List Event, appRun host read1 read2 es =
      { moduleEffects := [], readyEffects := [.exec (path ++ " -i --electron --serverport=" ++ port)],
        poll := some (run { url := "http://localhost:" ++ port ++ "/", retries := 100,
                            interval := 1000 } es),
        settledEffects := onSettled
          { port := p, pdf2zh_path := e, targetURL := "http://localhost:" ++ port ++ "/" }
          (run { url := "http://localhost:" ++ port ++ "/", retries := 100,
                 interval := 1000 } es).promise,
        aborted := none, readyError := none } := by
    intro es
    simp [appRun, hm, hx, readyCheck]
  have hful : (run { url := "http://localhost:" ++ port ++ "/", retries := 100,
                     interval := 1000 } (respondsAt 1 200)).promise = .fulfilled := by
    rw [run_respondsAt _ 1 200 (le_refl 1) (by simp)]
    simp [onResponse, PromiseState.resolve]
  refine ⟨by rw [hrun], by rw [hrun], by rw [hrun], by rw [hrun], ?_, ?_, ?_, ?_, ?_⟩
  · intro u hu
    rw [hrun] at hu
    exact httpGet_url _ evs u hu
  · rw [hrun]
    exact one_le_gets _ evs
  · intro hf
    rw [hrun, hf]
    rfl
  · rw [hrun, hful]
    rfl
  · intro s
    simp [JsValue.toStr]

/-- C8 on a record with port 7860 and path `pdf2zh`, on a host that renders
the number 7860 as `7860`, with a first probe that receives status 200. -/
theorem launch_and_poll_same_port_witness :
    (appRun ⟨fun _ => "7860", "linux"⟩
      (.parsed (.object
        [("gradio_port", .number (.finite 7860)), ("pdf2zh_path", .string "pdf2zh")]))
      (.parsed (.object
        [("gradio_port", .number (.finite 7860)), ("pdf2zh_path", .string "pdf2zh")]))
      (respondsAt 1 200)).readyEffects = [.exec "pdf2zh -i --electron --serverport=7860"] ∧
    (∀ u, Effect.httpGet u ∈ (appRun ⟨fun _ => "7860", "linux"⟩
      (.parsed (.object
        [("gradio_port", .number (.finite 7860)), ("pdf2zh_path", .string "pdf2zh")]))
      (.parsed (.object
        [("gradio_port", .number (.finite 7860)), ("pdf2zh_path", .string "pdf2zh")]))
      (respondsAt 1 200)).checkEffects → u = "http://localhost:7860/") ∧
    (appRun ⟨fun _ => "7860", "linux"⟩
      (.parsed (.object
        [("gradio_port", .number (.finite 7860)), ("pdf2zh_path", .string "pdf2zh")]))
      (.parsed (.object
        [("gradio_port", .number (.finite 7860)), ("pdf2zh_path", .string "pdf2zh")]))
      (respondsAt 1 200)).settledEffects =
      [.consoleLog "Service is ready.", .setApplicationMenuNull,
       .loadURL "http://localhost:7860/"] :=
  have h := launch_and_poll_same_port ⟨fun _ => "7860", "linux"⟩
    (.parsed (.object
      [("gradio_port", .number (.finite 7860)), ("pdf2zh_path", .string "pdf2zh")]))
    (.parsed (.object
      [("gradio_port", .number (.finite 7860)), ("pdf2zh_path", .string "pdf2zh")]))
    (.number (.finite 7860)) (.string "pdf2zh") "7860" "pdf2zh" (respondsAt 1 200)
    (by simp [getPortFromConfig, tryGetPort, getProp, lookupField, JsValue.truthy])
    (by simp [getpdf2zhpathFromConfig, tryGetpdf2zhpath, getProp, lookupField, JsValue.truthy])
    (by simp [JsValue.toStr]) (by simp [JsValue.toStr])
  ⟨h.2.2.1, h.2.2.2.2.1, h.2.2.2.2.2.2.2.1⟩

/-! ## Termination of the spawned process -/

/-- C5, as stated, fails for a launched process with pid 4321: the
'window-close' handler followed by the 'window-all-closed' handler calls
`kill(4321, 'SIGTERM')` twice, the second handler finding the same handle as
the first. -/
theorem terminate_twice_counterexample :
    (terminateTwice ⟨fun _ => "", "linux"⟩ ⟨some ⟨some 4321⟩⟩).2 =
      [.kill 4321 "SIGTERM", .kill 4321 "SIGTERM", .appQuit] ∧
    livePid (onWindowClose ⟨some ⟨some 4321⟩⟩).1 = some 4321 ∧
    ¬ (kills (terminateTwice ⟨fun _ => "", "linux"⟩ ⟨some ⟨some 4321⟩⟩).2 ≤ 1) := by
  refine ⟨by decide, by decide, by decide⟩

/-- C5, amended: in every state in which a process with pid `pid` has been
launched, each of the two handlers leaves `processInstance` as it is and
calls `kill(pid, 'SIGTERM')` once, so the 'window-close' handler followed by
the 'window-all-closed' handler sends the signal exactly twice; the callback
of `kill` only logs, whether the delivery failed or not. A handler is a logged
no-op exactly when no process with a pid is recorded. -/
theorem terminate_twice (host : Host) (st : AppState) (pid : Nat)
    (h : livePid st = some pid) :
    onWindowClose st = (st, [.kill pid "SIGTERM"]) ∧
    (onWindowAllClosed host st).1 = st ∧
    kills (onWindowAllClosed host st).2 = 1 ∧
    (terminateTwice host st).1 = st ∧
    kills (terminateTwice host st).2 = 2 ∧
    (∀ err, kills (onKilled pid err) = 0) ∧
    (∀ st0 : AppState, livePid st0 = none →
      onWindowClose st0 = (st0, [.consoleWarn "No process is running."]) ∧
      kills (terminateTwice host st0).2 = 0) := by
  have hc : onWindowClose st = (st, [.kill pid "SIGTERM"]) := by
    simp [onWindowClose, h]
  refine ⟨hc, rfl, ?_, by simp [terminateTwice, onWindowAllClosed, hc], ?_, ?_, ?_⟩
  · by_cases hd : host.platform = "darwin" <;> simp [onWindowAllClosed, h, hd, kills]
  · by_cases hd : host.platform = "darwin" <;>
      simp [terminateTwice, hc, onWindowAllClosed, h, hd, kills]
  · intro err
    cases err <;> simp [onKilled, kills]
  · intro st0 h0
    refine ⟨by simp [onWindowClose, h0], ?_⟩
    by_cases hd : host.platform = "darwin" <;>
      simp [terminateTwice, onWindowClose, onWindowAllClosed, h0, hd, kills]

/-- C5 amended, for a launched process with pid 4321 on Linux. -/
theorem terminate_twice_witness :
    kills (terminateTwice ⟨fun _ => "", "linux"⟩ ⟨some ⟨some 4321⟩⟩).2 = 2 ∧
    (terminateTwice ⟨fun _ => "", "linux"⟩ ⟨some ⟨some 4321⟩⟩).1 = ⟨some ⟨some 4321⟩⟩ :=
  have h := terminate_twice ⟨fun _ => "", "linux"⟩ ⟨some ⟨some 4321⟩⟩ 4321 (by decide)
  ⟨h.2.2.2.2.1, h.2.2.2.1⟩

end PDFMathTranslate
